import Mathlib

/-!
Shallow embedding of the `throneclash/video_creation_api` repository.

Embedded components:
* the in-memory job queue (`src/app/job_queue.py`: `JobStatus`, `Job`,
  `JobQueue.update_job_status`);
* the video pipeline (`src/utils/video_processor.py`: `VideoProcessor.process_video`,
  `VideoProcessor._format_currency`, `delete_video_file`, `save_payload_log`);
* the Instagram publisher (`src/utils/video_processor.py`: `InstagramPublisher.publish_video`);
* the background orchestrator (`src/main.py`: `process_video_background`).

External effects are modelled explicitly: the filesystem as a `String → Bool`
existence predicate, the network as oracle responses (`Except` for transport
exceptions), `datetime.utcnow()` as a `Nat` clock incremented once per
`update_job_status` call, and the random audio pick / template engine as
oracle values in `ProcEnv`.  Python floats are modelled as rationals: the
decimal-formatting pipeline is modelled at the level of the decimal value
(binary floating-point representation error is not modelled).
-/

/-- Python truthiness of an optional string: `None` and `""` are falsy. -/
def pyTruthyStr : Option String → Bool
  | none => false
  | some s => s != ""

/-- A JSON-ish value that can arrive in the untyped parameter bag under
`"amount"` (the generic `/api/v1/videos/create` route passes `params` through
as `Dict[str, Any]`). -/
inductive AmountVal
  | num (q : ℚ)
  | str (s : String)
deriving DecidableEq

/-- One entry of the `victims` list (src/app/models.py `Victim`). -/
structure Victim where
  name : String
  photo_url : String
  cause : String
  old_position : Int
deriving DecidableEq

/-- The parameter bag flowing through the pipeline (src/app/models.py
`TemplateDynamicParams`, but kept optional/untyped where the code reads it
with `.get`). -/
structure Params where
  region : Option String := none
  amount : Option AmountVal := none
  king_name : Option String := none
  dethroned_name : Option String := none
  victims : List Victim := []
  message : Option String := none
  cta : Option String := none
  persist_file : Bool := false
  publish_instagram : Bool := true
deriving DecidableEq

/-- Helper for the `float(...)` coercion: splits a character list at `.` characters
(used to parse decimal literals). -/
def splitOnDot : List Char → List (List Char)
  | [] => [[]]
  | c :: t =>
    match splitOnDot t with
    | [] => [[c]]
    | h :: r => if c = '.' then [] :: h :: r else (c :: h) :: r

/-- Value of a (possibly empty) list of decimal digit characters. -/
def readNatVal (l : List Char) : ℕ :=
  l.foldl (fun a c => a * 10 + (c.toNat - 48)) 0

/-- Parse a plain decimal literal the way Python `float` accepts it
(optional sign, digits, optional fractional part).  Scientific notation,
`inf`/`nan`, underscores and surrounding whitespace are not modelled; the
model only needs that ordinary decimals parse and non-numeric strings fail. -/
def parseDecimal? (s : String) : Option ℚ :=
  let (neg, body) :=
    match s.data with
    | '-' :: t => (true, t)
    | '+' :: t => (false, t)
    | t => (false, t)
  let val? : Option ℚ :=
    match splitOnDot body with
    | [ipart] =>
      if ipart ≠ [] ∧ ipart.all Char.isDigit then some ((readNatVal ipart : ℕ) : ℚ) else none
    | [ipart, fpart] =>
      if ipart = [] ∧ fpart = [] then none
      else if ipart.all Char.isDigit ∧ fpart.all Char.isDigit then
        some (((readNatVal ipart : ℕ) : ℚ) + ((readNatVal fpart : ℕ) : ℚ) / (10 ^ fpart.length))
      else none
    | _ => none
  val?.map (fun v => if neg then -v else v)

/-- Model of `float(params.get("amount", 0))` (video_processor.py line 148): a missing
key defaults to `0`; a numeric value passes through; a string is parsed as a
decimal and raises `ValueError` when it is not numeric. -/
def pyFloat : Option AmountVal → Except String ℚ
  | none => Except.ok 0
  | some (AmountVal.num q) => Except.ok q
  | some (AmountVal.str s) =>
    match parseDecimal? s with
    | some q => Except.ok q
    | none => Except.error ("could not convert string to float: '" ++ s ++ "'")

/-- Dynamic capture duration (video_processor.py lines 124-126): base
10000 ms, +3500 ms when `context.get("dethroned_name")` is truthy, +3500 ms
when `context.get("victims")` is truthy (non-empty list). -/
def computeDuration (ctx : Params) : ℕ :=
  let d1 : ℕ := 10000
  let d2 : ℕ := if pyTruthyStr ctx.dethroned_name then d1 + 3500 else d1
  if ctx.victims.isEmpty then d2 else d2 + 3500

/-- Truthiness of `context.get("dethroned_name")` in the duration computation. -/
def hasDethronedFrame (p : Params) : Bool := pyTruthyStr p.dethroned_name

/-- Truthiness of `context.get("victims")` in the duration computation. -/
def hasVictimsFrame (p : Params) : Bool := !p.victims.isEmpty

/-- Decimal digit characters of `n`, least significant first (the digit
string Python prints for the integral part).  Fuel-based so that it reduces
by `rfl` in the kernel. -/
def natDigitsRevAux : ℕ → ℕ → List Char
  | 0, _ => []
  | fuel + 1, n =>
    if n < 10 then [Nat.digitChar n]
    else Nat.digitChar (n % 10) :: natDigitsRevAux fuel (n / 10)

/-- Decimal digit characters of `n`, least significant first. -/
def natDigitsRev (n : ℕ) : List Char := natDigitsRevAux (n + 1) n

/-- Thousands grouping of Python `f"{x:,.2f}"`: working over the digit list
least-significant-first, insert a `,` after every three digits. -/
def groupRev : List Char → List Char
  | [] => []
  | [a] => [a]
  | [a, b] => [a, b]
  | [a, b, c] => [a, b, c]
  | a :: b :: c :: d :: rest => a :: b :: c :: ',' :: groupRev (d :: rest)

/-- Comma-grouped decimal rendering of a natural number (the integral part of
Python `f"{x:,.2f}"`). -/
def commaGrouped (n : ℕ) : String :=
  String.mk ((groupRev (natDigitsRev n)).reverse)

/-- Exactly-two-digit rendering of the fractional part `n` (`0 ≤ n < 100`). -/
def twoFrac (n : ℕ) : String :=
  if n < 10 then String.mk ['0', Nat.digitChar n] else String.mk ((natDigitsRev n).reverse)

/-- Round to the nearest integer, ties to even (the rounding Python's fixed
precision formatting applies to the decimal value). -/
def roundHalfEven (q : ℚ) : ℤ :=
  let n := ⌊q⌋
  let r := q - n
  if r < 1/2 then n
  else if 1/2 < r then n + 1
  else if n % 2 = 0 then n else n + 1

/-- Python `f"{amount:,.2f}"`: sign, comma-grouped integral part, `.`, two
fraction digits, after rounding the value to two decimals (ties to even). -/
def pyFormatCommaFixed2 (q : ℚ) : String :=
  let c : ℕ := (roundHalfEven (|q| * 100)).toNat
  (if q < 0 then "-" else "") ++ commaGrouped (c / 100) ++ "." ++ twoFrac (c % 100)

/-- One step of the BR separator-swap chain
`.replace(",", "X").replace(".", ",").replace("X", ".")`: replacing a
single-character pattern is a character map. -/
def replaceChar (a b : Char) (l : List Char) : List Char :=
  l.map (fun c => if c = a then b else c)

/-- The BR separator swap of `VideoProcessor._format_currency`
(video_processor.py line 97), written as the literal three-step replace
chain on single characters. -/
def swapSeparators (s : String) : String :=
  String.mk (replaceChar 'X' '.' (replaceChar '.' ',' (replaceChar ',' 'X' s.data)))

/-- Model of `VideoProcessor._format_currency` (video_processor.py lines 94-99):
`f"{amount:,.2f}"`, with `.`/`,` swapped for region `"BR"`. -/
def format_currency (amount : ℚ) (region : String) : String :=
  if region = "BR" then swapSeparators (pyFormatCommaFixed2 amount)
  else pyFormatCommaFixed2 amount

/-- Oracle inputs of one `VideoProcessor.process_video` run: the fresh
`uuid`, the `_get_random_music` outcome (its internal failures are already
absorbed into `None` by its bare `except` handlers), the outcome of template
lookup + Jinja rendering, and the outcome of the render engine
(`renderer.render_video`) as a function of the requested capture duration. -/
structure ProcEnv where
  video_id : String
  audio : Option String
  tmpl : Except String String
  render : ℕ → Except String Unit

/-- The dictionary `VideoProcessor.process_video` returns (video_processor.py
lines 151-160); `instagram_id` models the key the orchestrator merges in on
publish success. -/
structure ResultDict where
  video_id : String
  status : String
  video_path : Option String
  region : String
  king_name : Option String
  amount : String
  persist_file : Bool
  original_params : Params
  instagram_id : Option String := none
deriving DecidableEq

/-- The intended output path (video_processor.py lines 105-107):
`os.path.join(output_dir, f"{region.lower()}_{video_id}.mp4")` with the
region already upper-cased. -/
def outputPathOf (output_dir : String) (env : ProcEnv) (p : Params) : String :=
  output_dir ++ "/" ++ (((p.region.getD "BR").toUpper).toLower ++ "_" ++ env.video_id ++ ".mp4")

/-- Model of `delete_video_file` (video_processor.py lines 18-27): removes the file if
the path is truthy and the file exists, returning whether a deletion
happened; never raises (its own `except` swallows OS errors, not modelled
as they cannot occur in this filesystem model). -/
def delete_video_file (fs : String → Bool) (video_path : Option String) :
    Bool × (String → Bool) :=
  match video_path with
  | none => (false, fs)
  | some p =>
    if p != "" && fs p then (true, fun x => if x = p then false else fs x)
    else (false, fs)

/-- The part of `process_video` guarded by its `try`/`except` (lines
119-136): template lookup + render, then the render-engine invocation at the
computed duration. -/
def renderStepOutcome (env : ProcEnv) (p : Params) : Except String Unit := do
  let _html ← env.tmpl
  env.render (computeDuration p)

/-- Model of `VideoProcessor.process_video` (video_processor.py lines 101-160).
State passing: takes and returns the filesystem.  On render success the
renderer contract guarantees the file at `output_path` exists; on a caught
render failure the code deletes `output_path`.  The `float` coercion of
`amount` (line 148) happens after the `try`/`except`, so its failure
propagates as `Except.error`. -/
def process_video (output_dir : String) (env : ProcEnv) (params : Params)
    (fs : String → Bool) : Except String ResultDict × (String → Bool) :=
  let video_id := env.video_id
  let region := (params.region.getD "BR").toUpper
  let output_path := outputPathOf output_dir env params
  let _audio := env.audio
  match renderStepOutcome env params with
  | Except.ok _ =>
    let fs1 : String → Bool := fun x => if x = output_path then true else fs x
    (match pyFloat params.amount with
     | Except.error e => (Except.error e, fs1)
     | Except.ok amt =>
       (Except.ok { video_id := video_id, status := "completed",
                    video_path := some output_path, region := region,
                    king_name := params.king_name,
                    amount := format_currency amt region,
                    persist_file := params.persist_file,
                    original_params := params }, fs1))
  | Except.error _e =>
    let fs1 := (delete_video_file fs (some output_path)).2
    (match pyFloat params.amount with
     | Except.error e2 => (Except.error e2, fs1)
     | Except.ok amt =>
       (Except.ok { video_id := video_id, status := "failed",
                    video_path := none, region := region,
                    king_name := params.king_name,
                    amount := format_currency amt region,
                    persist_file := params.persist_file,
                    original_params := params }, fs1))

/-- The four credential environment variables (src/app/config.py). -/
structure SettingsCfg where
  INSTAGRAM_ACCESS_TOKEN_BR : Option String
  INSTAGRAM_ACCOUNT_ID_BR : Option String
  INSTAGRAM_ACCESS_TOKEN_GLOBAL : Option String
  INSTAGRAM_ACCOUNT_ID_GLOBAL : Option String

/-- Parsed response of the Init call (`uri` and `id` keys of the JSON body);
a transport exception or a JSON decoding error of the body is the
`Except.error` case of the oracle. -/
structure InitResp where
  status_code : ℕ
  text : String
  uri : Option String
  json_id : Option String
deriving DecidableEq

/-- Parsed response of the publish call (`id` key of the JSON body). -/
structure PubResp where
  status_code : ℕ
  text : String
  json_id : Option String
deriving DecidableEq

/-- Network oracle for one `InstagramPublisher.publish_video` run.  The
upload response body is never inspected by the code, so only the
exception/no-exception outcome of that step is modelled. -/
structure NetEnv where
  init : Except String InitResp
  upload : Except String Unit
  publish : Except String PubResp

/-- The three network steps, for the call trace. -/
inductive NetCall
  | initCall
  | uploadCall
  | publishCall
deriving DecidableEq

/-- The dict `publish_video` returns: `success`, `error`, `published_id`. -/
structure PublishOutcome where
  success : Bool
  error : Option String
  published_id : Option String
deriving DecidableEq

/-- Credential pair selection (video_processor.py lines 177-182): region
`"GLOBAL"` uses the GLOBAL pair, anything else the BR pair. -/
def credsFor (st : SettingsCfg) (region : String) : Option String × Option String :=
  if region = "GLOBAL" then (st.INSTAGRAM_ACCESS_TOKEN_GLOBAL, st.INSTAGRAM_ACCOUNT_ID_GLOBAL)
  else (st.INSTAGRAM_ACCESS_TOKEN_BR, st.INSTAGRAM_ACCOUNT_ID_BR)

/-- The `not access_token or not account_id` check (line 184), negated. -/
def credsOK (st : SettingsCfg) (region : String) : Bool :=
  pyTruthyStr (credsFor st region).1 && pyTruthyStr (credsFor st region).2

/-- The `not path or not os.path.exists(path)` check (line 189), negated. -/
def fileOK (fs : String → Bool) (path : Option String) : Bool :=
  match path with
  | none => false
  | some p => p != "" && fs p

/-- Python `f"...{path}"` rendering of an optional path. -/
def pyShowOptPath : Option String → String
  | none => "None"
  | some p => p

/-- Model of `InstagramPublisher.publish_video` (video_processor.py lines 167-245),
returning the outcome dict and the trace of network steps attempted.
All of init/upload/publish plus the fixed settle delay sit inside one
`try`/`except`, so transport exceptions become failure outcomes; the
function is total (nothing propagates). -/
def publish_video (st : SettingsCfg) (fs : String → Bool) (video_data : ResultDict)
    (env : NetEnv) : PublishOutcome × List NetCall :=
  let path := video_data.video_path
  let region := video_data.region
  if !(credsOK st region) then
    (⟨false, some ("Credenciais não encontradas para região " ++ region), none⟩, [])
  else if !(fileOK fs path) then
    (⟨false, some ("Arquivo de vídeo não encontrado: " ++ pyShowOptPath path), none⟩, [])
  else
    match env.init with
    | Except.error e => (⟨false, some e, none⟩, [NetCall.initCall])
    | Except.ok r =>
      if r.status_code ≠ 200 then
        (⟨false, some ("Erro Init: " ++ r.text), none⟩, [NetCall.initCall])
      else
        match env.upload with
        | Except.error e => (⟨false, some e, none⟩, [NetCall.initCall, NetCall.uploadCall])
        | Except.ok _ =>
          match env.publish with
          | Except.error e =>
            (⟨false, some e, none⟩, [NetCall.initCall, NetCall.uploadCall, NetCall.publishCall])
          | Except.ok pub =>
            if pub.status_code = 200 then
              (⟨true, none, pub.json_id⟩,
               [NetCall.initCall, NetCall.uploadCall, NetCall.publishCall])
            else
              (⟨false, some ("Erro Publish: " ++ pub.text), none⟩,
               [NetCall.initCall, NetCall.uploadCall, NetCall.publishCall])

/-- Model of `JobStatus` (job_queue.py lines 14-20). -/
inductive JobStatus
  | pending
  | processing
  | completed
  | failed
  | published
deriving DecidableEq

/-- Model of `Job` (job_queue.py lines 23-43); timestamps are clock ticks.  A
`datetime` is always truthy in Python, so only `none` counts as unset. -/
structure JobRec where
  job_id : String
  template : String
  params : Params
  status : JobStatus
  created_at : ℕ
  started_at : Option ℕ := none
  completed_at : Option ℕ := none
  error : Option String := none
  result : Option ResultDict := none
deriving DecidableEq

/-- The queue's `self.jobs` dictionary, as a partial map. -/
abbrev JobMap := String → Option JobRec

/-- Model of `JobQueue.update_job_status` (job_queue.py lines 88-122): returns `False`
and changes nothing when the job id is unknown; otherwise sets the status,
sets `started_at` only on PROCESSING when still unset, overwrites
`completed_at` on every transition into COMPLETED/FAILED/PUBLISHED, and
stores truthy `error` (`if error:`) and present `result` (`if result:`;
the dicts passed are never empty, so presence is truthiness). -/
def update_job_status (jobs : JobMap) (job_id : String) (status : JobStatus)
    (error : Option String) (result : Option ResultDict) (now : ℕ) :
    Bool × JobMap :=
  match jobs job_id with
  | none => (false, jobs)
  | some job0 =>
    let j1 := { job0 with status := status }
    let j2 := if status = JobStatus.processing ∧ j1.started_at = none then
        { j1 with started_at := some now } else j1
    let j3 := if status = JobStatus.completed ∨ status = JobStatus.failed ∨
        status = JobStatus.published then { j2 with completed_at := some now } else j2
    let j4 := if pyTruthyStr error then { j3 with error := error } else j3
    let j5 := if result.isSome then { j4 with result := result } else j4
    (true, fun k => if k = job_id then some j5 else jobs k)

/-- One `update_job_status` call issued by the orchestrator. -/
structure UpdCall where
  status : JobStatus
  error : Option String
  result : Option ResultDict
  now : ℕ
deriving DecidableEq

/-- One failure-log record written by `save_payload_log`
(video_processor.py lines 30-50); the timestamped file name and disk I/O
errors are not modelled. -/
structure PayloadLog where
  payload : Params
  video_id : String
  error_message : String
deriving DecidableEq

/-- Mutable world of one orchestration run: the shared job map, the
filesystem, the failure-log directory, and the clock. -/
structure OrchState where
  queue : JobMap
  fs : String → Bool
  plogs : List PayloadLog
  clock : ℕ

/-- Apply one `update_job_status` call and advance the clock. -/
def applyUpd (s : OrchState) (job_id : String) (c : UpdCall) : OrchState :=
  { s with
    queue := (update_job_status s.queue job_id c.status c.error c.result c.now).2,
    clock := s.clock + 1 }

/-- The oracles one orchestration run consumes. -/
structure OrchEnv where
  proc : ProcEnv
  net : NetEnv

/-- Model of `process_video_background` (main.py lines 122-192), returning the final
world and the sequence of `update_job_status` calls it issued.  The only
exception source inside its `try` is `process_video` itself (the queue
update, `save_payload_log`, `delete_video_file` and `publish_video` are all
total), and when it raises, the local `video_path` is still `None`, so the
`except` branch performs no delete. -/
def process_video_background (output_dir : String) (st : SettingsCfg) (job_id : String)
    (_template : String) (params : Params) (env : OrchEnv) (s0 : OrchState) :
    OrchState × List UpdCall :=
  let persist_file := params.persist_file
  let publish_instagram := params.publish_instagram
  let c1 : UpdCall := ⟨JobStatus.processing, none, none, s0.clock⟩
  let s1 := applyUpd s0 job_id c1
  match process_video output_dir env.proc params s1.fs with
  | (Except.error e, fs2) =>
    let s2 := { s1 with fs := fs2 }
    let c2 : UpdCall := ⟨JobStatus.failed, some e, none, s2.clock⟩
    (applyUpd s2 job_id c2, [c1, c2])
  | (Except.ok video_data, fs2) =>
    let s2 := { s1 with fs := fs2 }
    let video_path := video_data.video_path
    if video_data.status = "failed" then
      let c2 : UpdCall := ⟨JobStatus.failed, some "Erro na renderização", none, s2.clock⟩
      (applyUpd s2 job_id c2, [c1, c2])
    else
      let c2 : UpdCall := ⟨JobStatus.completed, none, some video_data, s2.clock⟩
      let s3 := applyUpd s2 job_id c2
      if publish_instagram then
        let pub := (publish_video st s3.fs video_data env.net).1
        if pub.success then
          let c3 : UpdCall :=
            ⟨JobStatus.published, none,
             some { video_data with instagram_id := pub.published_id }, s3.clock⟩
          let s4 := applyUpd s3 job_id c3
          let s5 := if persist_file then s4
            else { s4 with fs := (delete_video_file s4.fs video_path).2 }
          (s5, [c1, c2, c3])
        else
          let error_msg := pub.error.getD "None"
          let lg : PayloadLog := ⟨video_data.original_params, video_data.video_id, error_msg⟩
          let s4 := { s3 with plogs := s3.plogs ++ [lg] }
          let s5 := { s4 with fs := (delete_video_file s4.fs video_path).2 }
          let c3 : UpdCall := ⟨JobStatus.failed, some ("Instagram: " ++ error_msg), none, s5.clock⟩
          (applyUpd s5 job_id c3, [c1, c2, c3])
      else
        let s4 := if persist_file then s3
          else { s3 with fs := (delete_video_file s3.fs video_path).2 }
        (s4, [c1, c2])

/-- Edges of the job state machine of spec §4.4. -/
def machineEdge : JobStatus → JobStatus → Bool
  | JobStatus.pending, JobStatus.processing => true
  | JobStatus.processing, JobStatus.completed => true
  | JobStatus.processing, JobStatus.failed => true
  | JobStatus.completed, JobStatus.published => true
  | JobStatus.completed, JobStatus.failed => true
  | _, _ => false

/-- States in which a path may legitimately end: FAILED, PUBLISHED, and
COMPLETED (the "completed-without-publish" terminal). -/
def isTerminalStatus : JobStatus → Bool
  | JobStatus.failed => true
  | JobStatus.published => true
  | JobStatus.completed => true
  | _ => false

/-- A valid observed status path: starts at PENDING, follows the machine's
edges (hence passes through PROCESSING before anything later), never
revisits a state, ends in exactly one terminal outcome, and the strict
terminals FAILED/PUBLISHED occur only as the last state. -/
def validStatusPath (tr : List JobStatus) : Prop :=
  tr.head? = some JobStatus.pending ∧
  List.Chain' (fun a b => machineEdge a b = true) tr ∧
  tr.Nodup ∧
  JobStatus.processing ∈ tr ∧
  isTerminalStatus (tr.getLast?.getD JobStatus.pending) = true ∧
  (∀ s ∈ tr.dropLast, s ≠ JobStatus.failed ∧ s ≠ JobStatus.published)

/-- Replay a list of `update_job_status` calls against a job map. -/
def replayCalls (jobs : JobMap) (id : String) (cs : List UpdCall) : JobMap :=
  cs.foldl (fun q c => (update_job_status q id c.status c.error c.result c.now).2) jobs

/-! ### Concrete instances used by witnesses and counterexamples -/

/-- A minimal parameter bag whose render and publish both succeed
(`publish_instagram` defaults to `True`, region defaults to `"BR"`). -/
def pPub : Params := { amount := some (AmountVal.num 500) }

/-- Like `pPub` but with `persist_file=True`. -/
def pPersist : Params := { amount := some (AmountVal.num 500), persist_file := true }

/-- A parameter bag whose `amount` is a non-numeric string. -/
def pAbc : Params := { amount := some (AmountVal.str "abc") }

/-- A parameter bag with both a dethroned king and a victim. -/
def pBoth : Params :=
  { dethroned_name := some "OldKing", victims := [⟨"V", "url", "EMPURRADO", 9⟩] }

/-- Pipeline oracles where template rendering and the render engine succeed. -/
def envProcOK : ProcEnv :=
  { video_id := "vid1", audio := none, tmpl := Except.ok "html",
    render := fun _ => Except.ok () }

/-- Network oracles where all three Instagram steps succeed. -/
def netOK : NetEnv :=
  { init := Except.ok ⟨200, "", some "uri", some "cid"⟩, upload := Except.ok (),
    publish := Except.ok ⟨200, "", some "mid"⟩ }

/-- Network oracles where the Init step raises a transport exception. -/
def netInitBoom : NetEnv :=
  { init := Except.error "boom", upload := Except.ok (),
    publish := Except.ok ⟨200, "", some "mid"⟩ }

/-- Settings with all four credentials present. -/
def stOK : SettingsCfg := ⟨some "tokbr", some "accbr", some "tokg", some "accg"⟩

/-- Settings with the BR pair missing. -/
def stNoBR : SettingsCfg := ⟨none, none, some "tokg", some "accg"⟩

/-- Orchestration oracles where everything succeeds. -/
def envOK : OrchEnv := ⟨envProcOK, netOK⟩

/-- Orchestration oracles where publishing fails at Init. -/
def envPubFail : OrchEnv := ⟨envProcOK, netInitBoom⟩

/-- A freshly submitted job, as `create_video` builds it (status PENDING). -/
def job0 : JobRec :=
  { job_id := "j", template := "DYNAMIC", params := pPub, status := JobStatus.pending,
    created_at := 0 }

/-- A queue holding exactly the job `"j"`. -/
def q0 : JobMap := fun k => if k = "j" then some job0 else none

/-- Initial world: queue with job `"j"`, empty filesystem, empty log dir. -/
def s0ex : OrchState := { queue := q0, fs := fun _ => false, plogs := [], clock := 0 }

/-- A job that has already completed at tick 1. -/
def jobDone : JobRec :=
  { job0 with status := JobStatus.completed, started_at := some 0, completed_at := some 1 }

/-- A completed video result used to exercise the publisher directly. -/
def vdEx : ResultDict :=
  { video_id := "vid1", status := "completed", video_path := some "v.mp4",
    region := "BR", king_name := some "Ana", amount := "500,00",
    persist_file := false, original_params := pPub }

/-! ### Claim theorems -/

/-- Claim C5: — For every parameter bag, the capture duration computed by
`process_video` (extracted as `computeDuration`, which `process_video`
passes to the render engine) is 10000 ms with neither a dethroned name nor
a non-empty victims list, 13500 ms with exactly one of the two, and
17000 ms with both; the two 3500 ms additions are independent and additive.
Presence follows the code's Python truthiness: a supplied-but-empty
`dethroned_name` counts as absent. -/
theorem c5_duration_cases (p : Params) :
    (hasDethronedFrame p = false → hasVictimsFrame p = false → computeDuration p = 10000) ∧
    (hasDethronedFrame p = true → hasVictimsFrame p = false → computeDuration p = 13500) ∧
    (hasDethronedFrame p = false → hasVictimsFrame p = true → computeDuration p = 13500) ∧
    (hasDethronedFrame p = true → hasVictimsFrame p = true → computeDuration p = 17000) := by
  cases hd : pyTruthyStr p.dethroned_name <;> cases hv : p.victims.isEmpty <;>
    simp [computeDuration, hasDethronedFrame, hasVictimsFrame, hd, hv]

/-- Witness for C5: both frames present gives 17000 ms. -/
theorem c5_duration_cases_witness : computeDuration pBoth = 17000 :=
  (c5_duration_cases pBoth).2.2.2 rfl rfl

/-- Claim C9: — `update_job_status` on an absent job id returns `False` and
leaves the queue (hence every job's fields) entirely unchanged; on a present
job id it returns `True`. -/
theorem c9_update_missing_job (jobs : JobMap) (id : String) (st : JobStatus)
    (e : Option String) (r : Option ResultDict) (now : ℕ) :
    (jobs id = none → update_job_status jobs id st e r now = (false, jobs)) ∧
    (∀ j, jobs id = some j → (update_job_status jobs id st e r now).1 = true) := by
  constructor
  · intro h
    simp [update_job_status, h]
  · intro j h
    simp [update_job_status, h]

/-- Witness for C9: on the empty queue the update is a no-op returning
`false`, and on `q0` (which holds `"j"`) it returns `true`. -/
theorem c9_update_missing_job_witness :
    update_job_status (fun _ => none) "j" JobStatus.processing none none 0 =
      (false, fun _ => none) ∧
    (update_job_status q0 "j" JobStatus.processing none none 0).1 = true :=
  ⟨(c9_update_missing_job (fun _ => none) "j" JobStatus.processing none none 0).1 rfl,
   (c9_update_missing_job q0 "j" JobStatus.processing none none 0).2 job0 rfl⟩

/-- Claim C10: — Every result dictionary `process_video` returns carries the
fresh video id, a status that is `"completed"` or `"failed"`, the normalized
region, the display-formatted amount, the `persist_file` flag and the
original parameter bag, and its `video_path` is non-null exactly when its
status is `"completed"`. -/
theorem c10_result_shape (d : String) (env : ProcEnv) (p : Params)
    (fs : String → Bool) (r : ResultDict) :
    (process_video d env p fs).1 = Except.ok r →
    r.video_id = env.video_id ∧
    (r.status = "completed" ∨ r.status = "failed") ∧
    r.region = (p.region.getD "BR").toUpper ∧
    (∃ q, pyFloat p.amount = Except.ok q ∧ r.amount = format_currency q r.region) ∧
    r.persist_file = p.persist_file ∧
    r.original_params = p ∧
    (r.video_path.isSome ↔ r.status = "completed") := by
  intro h
  cases hr : renderStepOutcome env p <;> cases hf : pyFloat p.amount <;>
    simp [process_video, hr, hf] at h <;> subst h <;> simp [hf]

/-- Witness for C10, on a successful concrete run. -/
theorem c10_result_shape_witness :
    ({ video_id := "vid1", status := "completed",
       video_path := some "./output/br_vid1.mp4", region := "BR",
       king_name := none, amount := "500,00", persist_file := false,
       original_params := pPub } : ResultDict).video_id = "vid1" ∧
    (({ video_id := "vid1", status := "completed",
        video_path := some "./output/br_vid1.mp4", region := "BR",
        king_name := none, amount := "500,00", persist_file := false,
        original_params := pPub } : ResultDict).video_path.isSome ↔
      ({ video_id := "vid1", status := "completed",
         video_path := some "./output/br_vid1.mp4", region := "BR",
         king_name := none, amount := "500,00", persist_file := false,
         original_params := pPub } : ResultDict).status = "completed") := by
  have h := c10_result_shape "./output" envProcOK pPub (fun _ => false)
    { video_id := "vid1", status := "completed",
      video_path := some "./output/br_vid1.mp4", region := "BR",
      king_name := none, amount := "500,00", persist_file := false,
      original_params := pPub } (by with_unfolding_all rfl)
  exact ⟨h.1, h.2.2.2.2.2.2⟩

/-- Claim C2, counterexample: — the claim "process_video returns a result
dictionary and never raises past its own boundary (including amount
coercion)" is false: with `amount = "abc"` the `float(...)` coercion at
video_processor.py line 148 sits outside the `try`/`except` and raises,
even though rendering succeeded. -/
theorem c2_counterexample :
    (process_video "./output" envProcOK pAbc (fun _ => false)).1 =
      Except.error "could not convert string to float: 'abc'" := by
  with_unfolding_all rfl

/-- Claim C2, amended: — whenever the `float` coercion of `amount` succeeds,
`process_video` returns a result dictionary: failures of audio selection
(absorbed inside `_get_random_music`), of template rendering and of the
render engine are converted into a result with status `"failed"` and
`video_path` absent; but a failing amount coercion raises past the
boundary (see `c2_counterexample`). -/
theorem c2_amended (d : String) (env : ProcEnv) (p : Params) (fs : String → Bool)
    (q : ℚ) (hq : pyFloat p.amount = Except.ok q) :
    ∃ r, (process_video d env p fs).1 = Except.ok r ∧
      ((∃ e, renderStepOutcome env p = Except.error e) →
        r.status = "failed" ∧ r.video_path = none) ∧
      (renderStepOutcome env p = Except.ok () → r.status = "completed") := by
  cases hr : renderStepOutcome env p with
  | error e =>
    refine ⟨{ video_id := env.video_id, status := "failed", video_path := none,
              region := (p.region.getD "BR").toUpper, king_name := p.king_name,
              amount := format_currency q ((p.region.getD "BR").toUpper),
              persist_file := p.persist_file, original_params := p },
      by simp [process_video, hr, hq], fun _ => ⟨rfl, rfl⟩,
      fun h => by simp [hr] at h⟩
  | ok u =>
    cases u
    refine ⟨{ video_id := env.video_id, status := "completed",
              video_path := some (outputPathOf d env p),
              region := (p.region.getD "BR").toUpper, king_name := p.king_name,
              amount := format_currency q ((p.region.getD "BR").toUpper),
              persist_file := p.persist_file, original_params := p },
      by simp [process_video, hr, hq], fun he => ?_, fun _ => rfl⟩
    obtain ⟨e, he⟩ := he
    simp [hr] at he

/-- Witness for C2's amended theorem: a concrete successful run. -/
theorem c2_amended_witness :
    ∃ r, (process_video "./output" envProcOK pPub (fun _ => false)).1 = Except.ok r ∧
      ((∃ e, renderStepOutcome envProcOK pPub = Except.error e) →
        r.status = "failed" ∧ r.video_path = none) ∧
      (renderStepOutcome envProcOK pPub = Except.ok () → r.status = "completed") :=
  c2_amended "./output" envProcOK pPub (fun _ => false) 500 rfl

/-- Claim C7: — credential resolution uses the GLOBAL pair exactly for region
`"GLOBAL"` and the BR pair otherwise; a missing (or empty) access token or
account id makes `publish_video` return an immediate failure outcome whose
error names the region, with an empty network-call trace; a missing video
file likewise fails immediately with no network call. -/
theorem c7_publish_preconditions (st : SettingsCfg) (fs : String → Bool)
    (vd : ResultDict) (env : NetEnv) :
    credsFor st "GLOBAL" =
      (st.INSTAGRAM_ACCESS_TOKEN_GLOBAL, st.INSTAGRAM_ACCOUNT_ID_GLOBAL) ∧
    (∀ region, region ≠ "GLOBAL" →
      credsFor st region = (st.INSTAGRAM_ACCESS_TOKEN_BR, st.INSTAGRAM_ACCOUNT_ID_BR)) ∧
    (credsOK st vd.region = false →
      publish_video st fs vd env =
        (⟨false, some ("Credenciais não encontradas para região " ++ vd.region), none⟩, [])) ∧
    (credsOK st vd.region = true → fileOK fs vd.video_path = false →
      publish_video st fs vd env =
        (⟨false, some ("Arquivo de vídeo não encontrado: " ++ pyShowOptPath vd.video_path),
          none⟩, [])) := by
  refine ⟨by simp [credsFor], fun region hr => by simp [credsFor, hr], fun h => ?_,
    fun h1 h2 => ?_⟩
  · simp [publish_video, h]
  · simp [publish_video, h1, h2]

/-- Witness for C7: missing BR credentials fail immediately with no call. -/
theorem c7_publish_preconditions_witness :
    publish_video stNoBR (fun _ => true) vdEx netOK =
      (⟨false, some ("Credenciais não encontradas para região " ++ vdEx.region), none⟩, []) :=
  (c7_publish_preconditions stNoBR (fun _ => true) vdEx netOK).2.2.1 rfl

/-- Claim C3: — in `publish_video` the init, upload and publish steps run
sequentially without retry (the call trace is always a prefix of
init-upload-publish, each step at most once); once the preconditions pass,
a failure at a step — a transport exception at any step, a non-200 init
response, or a non-200 publish response (the upload response body is never
inspected, and the spec's step 4 prescribes no status check for it) —
short-circuits the remaining steps and yields a failure outcome; the
function is total, so no exception propagates.  A success outcome occurs
only when every step succeeded. -/
theorem c3_publish_steps (st : SettingsCfg) (fs : String → Bool) (vd : ResultDict)
    (env : NetEnv) :
    ((publish_video st fs vd env).2 = [] ∨
     (publish_video st fs vd env).2 = [NetCall.initCall] ∨
     (publish_video st fs vd env).2 = [NetCall.initCall, NetCall.uploadCall] ∨
     (publish_video st fs vd env).2 =
       [NetCall.initCall, NetCall.uploadCall, NetCall.publishCall]) ∧
    (credsOK st vd.region = true → fileOK fs vd.video_path = true →
      ((∀ e, env.init = Except.error e →
         publish_video st fs vd env = (⟨false, some e, none⟩, [NetCall.initCall])) ∧
       (∀ r, env.init = Except.ok r → r.status_code ≠ 200 →
         publish_video st fs vd env =
           (⟨false, some ("Erro Init: " ++ r.text), none⟩, [NetCall.initCall])) ∧
       (∀ r e, env.init = Except.ok r → r.status_code = 200 → env.upload = Except.error e →
         publish_video st fs vd env =
           (⟨false, some e, none⟩, [NetCall.initCall, NetCall.uploadCall])) ∧
       (∀ r e, env.init = Except.ok r → r.status_code = 200 → env.upload = Except.ok () →
          env.publish = Except.error e →
         publish_video st fs vd env =
           (⟨false, some e, none⟩,
            [NetCall.initCall, NetCall.uploadCall, NetCall.publishCall])) ∧
       (∀ r pr, env.init = Except.ok r → r.status_code = 200 → env.upload = Except.ok () →
          env.publish = Except.ok pr → pr.status_code ≠ 200 →
         publish_video st fs vd env =
           (⟨false, some ("Erro Publish: " ++ pr.text), none⟩,
            [NetCall.initCall, NetCall.uploadCall, NetCall.publishCall])) ∧
       (∀ r pr, env.init = Except.ok r → r.status_code = 200 → env.upload = Except.ok () →
          env.publish = Except.ok pr → pr.status_code = 200 →
         publish_video st fs vd env =
           (⟨true, none, pr.json_id⟩,
            [NetCall.initCall, NetCall.uploadCall, NetCall.publishCall])))) ∧
    ((publish_video st fs vd env).1.success = true →
      ∃ r pr, env.init = Except.ok r ∧ r.status_code = 200 ∧ env.upload = Except.ok () ∧
        env.publish = Except.ok pr ∧ pr.status_code = 200) := by
  refine ⟨?_, fun h1 h2 => ?_, ?_⟩
  · simp only [publish_video]
    repeat' split
    all_goals simp
  · refine ⟨fun e he => ?_, fun r hr hne => ?_, fun r e hr h200 hu => ?_,
      fun r e hr h200 hu hp => ?_, fun r pr hr h200 hu hp hne => ?_,
      fun r pr hr h200 hu hp h200p => ?_⟩
    · simp [publish_video, h1, h2, he]
    · simp [publish_video, h1, h2, hr, hne]
    · simp [publish_video, h1, h2, hr, h200, hu]
    · simp [publish_video, h1, h2, hr, h200, hu, hp]
    · simp [publish_video, h1, h2, hr, h200, hu, hp, hne]
    · simp [publish_video, h1, h2, hr, h200, hu, hp, h200p]
  · intro hs
    cases h1 : credsOK st vd.region with
    | false => simp [publish_video, h1] at hs
    | true =>
      cases h2 : fileOK fs vd.video_path with
      | false => simp [publish_video, h1, h2] at hs
      | true =>
        cases hinit : env.init with
        | error e => simp [publish_video, h1, h2, hinit] at hs
        | ok r =>
          by_cases h200 : r.status_code = 200
          · cases hup : env.upload with
            | error e => simp [publish_video, h1, h2, hinit, h200, hup] at hs
            | ok u =>
              cases u
              cases hpub : env.publish with
              | error e => simp [publish_video, h1, h2, hinit, h200, hup, hpub] at hs
              | ok pr =>
                by_cases hp200 : pr.status_code = 200
                · exact ⟨r, pr, rfl, h200, rfl, rfl, hp200⟩
                · simp [publish_video, h1, h2, hinit, h200, hup, hpub, hp200] at hs
          · simp [publish_video, h1, h2, hinit, h200] at hs

/-- Witness for C3: with valid credentials and an existing file, a transport
exception at Init yields a failure outcome and only the init call. -/
theorem c3_publish_steps_witness :
    publish_video stOK (fun _ => true) vdEx netInitBoom =
      (⟨false, some "boom", none⟩, [NetCall.initCall]) :=
  ((c3_publish_steps stOK (fun _ => true) vdEx netInitBoom).2.1
    (by with_unfolding_all rfl) (by with_unfolding_all rfl)).1 "boom" rfl

/-- Claim C1: — the status sequence written to a job driven by
`process_video_background` (its creation status PENDING followed by the
statuses of the `update_job_status` calls the orchestrator issues) is a
valid path through the §4.4 state machine: it starts at PENDING, follows
the machine's edges (hence passes through PROCESSING before any later
state), never revisits a state, and ends in exactly one terminal outcome
among FAILED, COMPLETED-without-publish and PUBLISHED, with
FAILED/PUBLISHED occurring only as the final state. -/
theorem c1_status_path (output_dir : String) (st : SettingsCfg) (job_id tmpl : String)
    (params : Params) (env : OrchEnv) (s0 : OrchState) :
    validStatusPath (JobStatus.pending ::
      ((process_video_background output_dir st job_id tmpl params env s0).2.map
        UpdCall.status)) := by
  have hA : validStatusPath [JobStatus.pending, JobStatus.processing, JobStatus.failed] := by
    simp [validStatusPath, machineEdge, isTerminalStatus, List.chain'_cons, List.chain'_singleton]
  have hB : validStatusPath
      [JobStatus.pending, JobStatus.processing, JobStatus.completed, JobStatus.published] := by
    simp [validStatusPath, machineEdge, isTerminalStatus, List.chain'_cons, List.chain'_singleton]
  have hC : validStatusPath
      [JobStatus.pending, JobStatus.processing, JobStatus.completed, JobStatus.failed] := by
    simp [validStatusPath, machineEdge, isTerminalStatus, List.chain'_cons, List.chain'_singleton]
  have hD : validStatusPath [JobStatus.pending, JobStatus.processing, JobStatus.completed] := by
    simp [validStatusPath, machineEdge, isTerminalStatus, List.chain'_cons, List.chain'_singleton]
  simp only [process_video_background]
  repeat' split
  all_goals dsimp only [List.map_cons, List.map_nil]
  all_goals first
  | exact hA
  | exact hB
  | exact hC
  | exact hD

/-- Witness for C1: the concrete all-success run yields a valid path. -/
theorem c1_status_path_witness :
    validStatusPath (JobStatus.pending ::
      ((process_video_background "./output" stOK "j" "DYNAMIC" pPub envOK s0ex).2.map
        UpdCall.status)) :=
  c1_status_path "./output" stOK "j" "DYNAMIC" pPub envOK s0ex

/-- Characterization of `update_job_status` on a present job: field-by-field
effect of one call (job_queue.py lines 103-122). -/
theorem update_job_status_found (jobs : JobMap) (id : String) (st : JobStatus)
    (e : Option String) (r : Option ResultDict) (now : ℕ) (j : JobRec)
    (hj : jobs id = some j) :
    (update_job_status jobs id st e r now).1 = true ∧
    ∃ j2, (update_job_status jobs id st e r now).2 id = some j2 ∧
      j2.status = st ∧
      j2.started_at = (if st = JobStatus.processing ∧ j.started_at = none
                       then some now else j.started_at) ∧
      j2.completed_at = (if st = JobStatus.completed ∨ st = JobStatus.failed ∨
                            st = JobStatus.published then some now else j.completed_at) ∧
      j2.error = (if pyTruthyStr e then e else j.error) ∧
      j2.result = (if r.isSome then r else j.result) := by
  by_cases h1 : st = JobStatus.processing ∧ j.started_at = none <;>
    by_cases h2 : st = JobStatus.completed ∨ st = JobStatus.failed ∨ st = JobStatus.published <;>
      by_cases h3 : pyTruthyStr e = true <;>
        by_cases h4 : r.isSome = true <;>
          simp [update_job_status, hj, h1, h2, h3, h4]

/-- Claim C4, counterexample: — the claim "`completed_at` is assigned at most
once, on the first transition into COMPLETED/FAILED/PUBLISHED, and later
transitions leave both timestamps unchanged" is false on the code: the
orchestrator's own call sequence for a successful publish is
PROCESSING, COMPLETED, PUBLISHED (at clock ticks 0, 1, 2), and replaying it
shows `completed_at` set to 1 by the COMPLETED transition and then
overwritten to 2 by the later PUBLISHED transition (job_queue.py lines
112-113 have no "already set" guard). -/
theorem c4_counterexample :
    (process_video_background "./output" stOK "j" "DYNAMIC" pPub envOK s0ex).2.map
        UpdCall.status =
      [JobStatus.processing, JobStatus.completed, JobStatus.published] ∧
    Option.map JobRec.completed_at
      (replayCalls q0 "j"
        ((process_video_background "./output" stOK "j" "DYNAMIC" pPub envOK s0ex).2.take 2)
        "j") = some (some 1) ∧
    Option.map JobRec.completed_at
      (replayCalls q0 "j"
        ((process_video_background "./output" stOK "j" "DYNAMIC" pPub envOK s0ex).2)
        "j") = some (some 2) := by
  refine ⟨?_, ?_, ?_⟩ <;> with_unfolding_all rfl

/-- Claim C4, amended: — over every `update_job_status` call: `started_at`,
once set, is never changed (so it is assigned at most once, on the first
PROCESSING transition); `completed_at` is overwritten with the current time
on *every* transition into COMPLETED, FAILED or PUBLISHED — not only the
first — and is left unchanged by non-terminal transitions.  In particular a
COMPLETED followed by PUBLISHED or FAILED reassigns `completed_at`. -/
theorem c4_amended :
    (∀ (jobs : JobMap) (id : String) (st : JobStatus) (e : Option String)
        (r : Option ResultDict) (now t : ℕ) (j : JobRec),
      jobs id = some j → j.started_at = some t →
      ∃ j2, (update_job_status jobs id st e r now).2 id = some j2 ∧
        j2.started_at = some t) ∧
    (∀ (jobs : JobMap) (id : String) (st : JobStatus) (e : Option String)
        (r : Option ResultDict) (now : ℕ) (j : JobRec),
      jobs id = some j → st = JobStatus.processing → j.started_at = none →
      ∃ j2, (update_job_status jobs id st e r now).2 id = some j2 ∧
        j2.started_at = some now) ∧
    (∀ (jobs : JobMap) (id : String) (st : JobStatus) (e : Option String)
        (r : Option ResultDict) (now : ℕ) (j : JobRec),
      jobs id = some j →
      (st = JobStatus.completed ∨ st = JobStatus.failed ∨ st = JobStatus.published) →
      ∃ j2, (update_job_status jobs id st e r now).2 id = some j2 ∧
        j2.completed_at = some now) ∧
    (∀ (jobs : JobMap) (id : String) (st : JobStatus) (e : Option String)
        (r : Option ResultDict) (now : ℕ) (j : JobRec),
      jobs id = some j →
      ¬(st = JobStatus.completed ∨ st = JobStatus.failed ∨ st = JobStatus.published) →
      ∃ j2, (update_job_status jobs id st e r now).2 id = some j2 ∧
        j2.completed_at = j.completed_at) := by
  refine ⟨?_, ?_, ?_, ?_⟩
  · intro jobs id st e r now t j hj ht
    obtain ⟨-, j2, h2, -, hs, -, -, -⟩ := update_job_status_found jobs id st e r now j hj
    exact ⟨j2, h2, by rw [hs]; simp [ht]⟩
  · intro jobs id st e r now j hj hst hnone
    obtain ⟨-, j2, h2, -, hs, -, -, -⟩ := update_job_status_found jobs id st e r now j hj
    exact ⟨j2, h2, by rw [hs]; simp [hst, hnone]⟩
  · intro jobs id st e r now j hj hterm
    obtain ⟨-, j2, h2, -, -, hc, -, -⟩ := update_job_status_found jobs id st e r now j hj
    exact ⟨j2, h2, by rw [hc]; simp [hterm]⟩
  · intro jobs id st e r now j hj hterm
    obtain ⟨-, j2, h2, -, -, hc, -, -⟩ := update_job_status_found jobs id st e r now j hj
    exact ⟨j2, h2, by rw [hc]; simp [hterm]⟩

/-- Witness for C4's amended theorem: a PUBLISHED transition at tick 2 on a
job whose `completed_at` was already 1 overwrites it to 2. -/
theorem c4_amended_witness :
    ∃ j2, (update_job_status (fun k => if k = "j" then some jobDone else none)
        "j" JobStatus.published none none 2).2 "j" = some j2 ∧
      j2.completed_at = some 2 :=
  c4_amended.2.2.1 _ "j" JobStatus.published none none 2 jobDone
    (by simp) (Or.inr (Or.inr rfl))

/-- A result the pipeline returned without `"failed"` status carries the
intended output path and the original parameter bag, and the rendered file
exists in the filesystem the pipeline hands back. -/
theorem process_video_ok_not_failed (d : String) (env : ProcEnv) (p : Params)
    (fs : String → Bool) (vd : ResultDict) (fs2 : String → Bool)
    (h : process_video d env p fs = (Except.ok vd, fs2)) (hst : ¬vd.status = "failed") :
    vd.video_path = some (outputPathOf d env p) ∧ vd.original_params = p ∧
    fs2 (outputPathOf d env p) = true := by
  cases hr : renderStepOutcome env p with
  | ok u =>
    cases u
    cases hf : pyFloat p.amount with
    | error e => simp [process_video, hr, hf] at h
    | ok amt =>
      simp only [process_video, hr, hf, Prod.mk.injEq, Except.ok.injEq] at h
      obtain ⟨hv, hfs⟩ := h
      subst hv
      subst hfs
      simp
  | error e =>
    cases hf : pyFloat p.amount with
    | error e2 => simp [process_video, hr, hf] at h
    | ok amt =>
      exfalso
      apply hst
      simp only [process_video, hr, hf, Prod.mk.injEq, Except.ok.injEq] at h
      obtain ⟨hv, -⟩ := h
      subst hv
      rfl

/-- Lemma: `delete_video_file` leaves the target path absent (whether or not the
file existed), as long as the path is a truthy string. -/
theorem delete_video_file_gone (fs : String → Bool) (p : String) (hp : p ≠ "") :
    (delete_video_file fs (some p)).2 p = false := by
  simp only [delete_video_file]
  split_ifs with h
  · simp
  · have hb : (p != "") = true := bne_iff_ne.mpr hp
    cases hfp : fs p
    · exact hfp
    · exact absurd (by rw [hb, hfp]; rfl) h

/-- The intended output path is never the empty string. -/
theorem outputPathOf_ne_empty (d : String) (env : ProcEnv) (p : Params) :
    outputPathOf d env p ≠ "" := by
  intro h
  have h2 : (outputPathOf d env p).length = 0 := by rw [h]; rfl
  unfold outputPathOf at h2
  rw [String.length_append, String.length_append] at h2
  have h3 : ("/" : String).length = 1 := rfl
  omega

/-- Claim C8: — for a job with `persist_file=true`: when the publish step
succeeded (observed status calls PROCESSING, COMPLETED, PUBLISHED) the
rendered file still exists afterwards; when the publish step failed
(observed calls PROCESSING, COMPLETED, FAILED) the file is deleted anyway,
and a failure-log record containing the original parameter bag is written
(main.py lines 149-178). -/
theorem c8_persist_asymmetry (output_dir : String) (st : SettingsCfg)
    (job_id tmpl : String) (params : Params) (env : OrchEnv) (s0 : OrchState)
    (hp : params.persist_file = true) :
    ((process_video_background output_dir st job_id tmpl params env s0).2.map
        UpdCall.status =
        [JobStatus.processing, JobStatus.completed, JobStatus.published] →
      (process_video_background output_dir st job_id tmpl params env s0).1.fs
        (outputPathOf output_dir env.proc params) = true) ∧
    ((process_video_background output_dir st job_id tmpl params env s0).2.map
        UpdCall.status =
        [JobStatus.processing, JobStatus.completed, JobStatus.failed] →
      (process_video_background output_dir st job_id tmpl params env s0).1.fs
        (outputPathOf output_dir env.proc params) = false ∧
      ∃ lg ∈ (process_video_background output_dir st job_id tmpl params env s0).1.plogs,
        lg.payload = params) := by
  simp only [process_video_background]
  rcases hpv : process_video output_dir env.proc params
      (applyUpd s0 job_id ⟨JobStatus.processing, none, none, s0.clock⟩).fs with ⟨res, fs2⟩
  cases res with
  | error e => simp
  | ok vd =>
    dsimp only [applyUpd]
    by_cases hnf : vd.status = "failed"
    · rw [if_pos hnf]
      simp
    · rw [if_neg hnf]
      by_cases hpi : params.publish_instagram = true
      · rw [if_pos hpi]
        by_cases hsucc : (publish_video st fs2 vd env.net).1.success = true
        · rw [if_pos hsucc, if_pos hp]
          refine ⟨fun _ => ?_, fun hC => absurd hC (by simp)⟩
          exact (process_video_ok_not_failed _ _ _ _ _ _ hpv hnf).2.2
        · rw [if_neg hsucc]
          refine ⟨fun hC => absurd hC (by simp), fun _ => ⟨?_, ?_⟩⟩
          · obtain ⟨hvp, -, -⟩ := process_video_ok_not_failed _ _ _ _ _ _ hpv hnf
            dsimp only
            rw [hvp]
            exact delete_video_file_gone _ _ (outputPathOf_ne_empty _ _ _)
          · obtain ⟨-, hop, -⟩ := process_video_ok_not_failed _ _ _ _ _ _ hpv hnf
            exact ⟨_, List.mem_append_right _ (List.mem_singleton_self _), hop⟩
      · rw [if_neg hpi]
        simp

/-- Witness for C8: the concrete all-success run with `persist_file=true`
keeps the rendered file on disk. -/
theorem c8_persist_asymmetry_witness :
    (process_video_background "./output" stOK "j" "DYNAMIC" pPersist envOK s0ex).1.fs
      (outputPathOf "./output" envProcOK pPersist) = true :=
  (c8_persist_asymmetry "./output" stOK "j" "DYNAMIC" pPersist envOK s0ex rfl).1
    (by with_unfolding_all rfl)

/-- Digit characters produced by `Nat.digitChar` are decimal digits. -/
theorem digitChar_isDigit : ∀ d < 10, (Nat.digitChar d).isDigit = true := by decide

/-- Every character `natDigitsRevAux` emits is a decimal digit. -/
theorem natDigitsRevAux_digits :
    ∀ (fuel n : ℕ), ∀ c ∈ natDigitsRevAux fuel n, c.isDigit = true := by
  intro fuel
  induction fuel with
  | zero =>
    intro n c hc
    simp [natDigitsRevAux] at hc
  | succ f ih =>
    intro n c hc
    simp only [natDigitsRevAux] at hc
    split at hc
    · rename_i h
      rw [List.mem_singleton] at hc
      subst hc
      exact digitChar_isDigit n h
    · rcases List.mem_cons.mp hc with h1 | h2
      · subst h1
        exact digitChar_isDigit (n % 10) (Nat.mod_lt n (by norm_num))
      · exact ih _ _ h2

/-- Every character of the digit string of `n` is a decimal digit. -/
theorem natDigitsRev_digits (n : ℕ) : ∀ c ∈ natDigitsRev n, c.isDigit = true :=
  natDigitsRevAux_digits (n + 1) n

/-- Characters of the grouped digit list come from the input or are the
`,` group separator. -/
theorem groupRev_mem : ∀ (l : List Char), ∀ c ∈ groupRev l, c ∈ l ∨ c = ',' := by
  have H : ∀ (k : ℕ) (l : List Char), l.length ≤ k → ∀ c ∈ groupRev l, c ∈ l ∨ c = ',' := by
    intro k
    induction k with
    | zero =>
      intro l hl c hc
      rw [Nat.le_zero, List.length_eq_zero] at hl
      subst hl
      simp [groupRev] at hc
    | succ k ih =>
      intro l hl c hc
      match l with
      | [] => simp [groupRev] at hc
      | [a] => simp [groupRev] at hc; simp [hc]
      | [a, b] => simp [groupRev] at hc; rcases hc with h | h <;> simp [h]
      | [a, b, c0] => simp [groupRev] at hc; rcases hc with h | h | h <;> simp [h]
      | a :: b :: c0 :: d :: rest =>
        simp only [groupRev, List.mem_cons] at hc
        rcases hc with h | h | h | h | h
        · exact Or.inl (by simp [h])
        · exact Or.inl (by simp [h])
        · exact Or.inl (by simp [h])
        · exact Or.inr h
        · have hlen : (d :: rest).length ≤ k := by
            simp at hl ⊢
            omega
          rcases ih (d :: rest) hlen c h with h2 | h2
          · exact Or.inl (by simp [List.mem_cons.mp h2])
          · exact Or.inr h2
  intro l
  exact H l.length l (le_refl _)

/-- Characters of the comma-grouped integral part are digits or commas. -/
theorem commaGrouped_chars (n : ℕ) :
    ∀ c ∈ (commaGrouped n).data, c.isDigit = true ∨ c = ',' := by
  intro c hc
  simp only [commaGrouped] at hc
  rw [List.mem_reverse] at hc
  rcases groupRev_mem _ c hc with h | h
  · exact Or.inl (natDigitsRev_digits n c h)
  · exact Or.inr h

/-- The two-digit fractional rendering really has two digit characters. -/
theorem twoFrac_spec :
    ∀ m < 100, (twoFrac m).length = 2 ∧ ∀ c ∈ (twoFrac m).data, c.isDigit = true := by
  decide

/-- Claim C6: — `_format_currency` is a pure function producing two-fraction-
digit output with region-dependent separators: `formatCurrency(1234.5,"BR")
= "1.234,50"` and `formatCurrency(1234.5,"GLOBAL") = "1,234.50"`; every
region other than `"BR"` formats exactly like `"GLOBAL"` (`,` grouping,
`.` decimal); the `"BR"` output is the separator swap of the `"GLOBAL"`
output; and for every nonnegative amount the `"GLOBAL"` output is a
digit-and-comma integral part, a `.`, and exactly two fraction digits. -/
theorem c6_format_currency :
    format_currency (2469/2 : ℚ) "BR" = "1.234,50" ∧
    format_currency (2469/2 : ℚ) "GLOBAL" = "1,234.50" ∧
    (∀ (q : ℚ) (r : String), r ≠ "BR" → format_currency q r = format_currency q "GLOBAL") ∧
    (∀ q : ℚ, format_currency q "BR" = swapSeparators (format_currency q "GLOBAL")) ∧
    (∀ q : ℚ, 0 ≤ q → ∃ ip fp, format_currency q "GLOBAL" = ip ++ "." ++ fp ∧
      fp.length = 2 ∧ (∀ c ∈ fp.data, c.isDigit = true) ∧
      (∀ c ∈ ip.data, c.isDigit = true ∨ c = ',')) := by
  refine ⟨by with_unfolding_all rfl, by with_unfolding_all rfl, ?_, ?_, ?_⟩
  · intro q r hr
    simp [format_currency, hr]
  · intro q
    simp [format_currency]
  · intro q hq
    refine ⟨commaGrouped ((roundHalfEven (|q| * 100)).toNat / 100),
      twoFrac ((roundHalfEven (|q| * 100)).toNat % 100), ?_, ?_, ?_, ?_⟩
    · rw [format_currency, if_neg (by decide)]
      rw [pyFormatCommaFixed2]
      rw [if_neg (not_lt.mpr hq)]
      rw [String.empty_append]
    · exact (twoFrac_spec _ (Nat.mod_lt _ (by norm_num))).1
    · exact (twoFrac_spec _ (Nat.mod_lt _ (by norm_num))).2
    · exact commaGrouped_chars _

/-- Witness for C6: a region other than BR formats like GLOBAL. -/
theorem c6_format_currency_witness :
    format_currency 500 "US" = format_currency 500 "GLOBAL" :=
  c6_format_currency.2.2.1 500 "US" (by decide)
